import Mathlib

/-!
Verification of the auto-detection configuration core of
k8s-agents-operator (src/internal/config/main.go): the detection pass
`Config.AutoDetect`, the startup entry point `Config.StartAutoDetect`,
the mutex-guarded routing-availability store `openshiftRoutesWrapper`,
and the construction function `New`.

The Go code is shallowly embedded as pure state-passing functions.  The
mutex of `openshiftRoutesWrapper` serializes every access, so a single
sequential state faithfully models the store as seen by the detection
loop.  The probe interface (`autodetect.AutoDetect`) is external: a pass
receives each probe result as an `Except` value.  The change-callback
registry (`newOnChange` / `changeHandler`) and the `autodetect` enum
types live outside the provided source slice and are modelled from the
spec where noted.
-/

namespace K8sAgentsOperator

/-- Modelled from the spec: routing-API availability is a tri-state enum
(the `autodetect` package is not part of the provided source slice). -/
inductive OpenShiftRoutesAvailability where
  | Unknown
  | Available
  | NotAvailable
deriving DecidableEq, Repr

/-- Modelled from the spec: the autoscaling-API version enum
(the `autodetect` package is not part of the provided source slice). -/
inductive AutoscalingVersion where
  | V1
  | V2
  | V2Beta1
  | V2Beta2
deriving DecidableEq, Repr

/-- Modelled from the spec: the configured default autoscaling version used
by `New` (the spec scenario starts at `NotAvailable/V2`). -/
def DefaultAutoscalingVersion : AutoscalingVersion := AutoscalingVersion.V2

/-- Errors returned by probes and callbacks are opaque; a string suffices. -/
abbrev GoError := String

/-- The mutex-guarded holder of the detected routing availability
(`openshiftRoutesWrapper` in main.go).  The mutex makes every `Set`/`Get`
a serialized critical section, so the sequential model drops it. -/
structure openshiftRoutesWrapper where
  current : OpenShiftRoutesAvailability
deriving DecidableEq, Repr

/-- `newOpenShiftRoutesWrapper` from main.go: the store starts at
`OpenShiftRoutesNotAvailable`. -/
def newOpenShiftRoutesWrapper : openshiftRoutesWrapper :=
  { current := OpenShiftRoutesAvailability.NotAvailable }

/-- `openshiftRoutesWrapper.Set` from main.go: store the value under the lock. -/
def openshiftRoutesWrapper.Set (p : openshiftRoutesWrapper)
    (ora : OpenShiftRoutesAvailability) : openshiftRoutesWrapper :=
  { p with current := ora }

/-- `openshiftRoutesWrapper.Get` from main.go: read the value under the lock. -/
def openshiftRoutesWrapper.Get (p : openshiftRoutesWrapper) :
    OpenShiftRoutesAvailability :=
  p.current

/-- A registered change callback: only its position (registration order is the
list order) and its result matter; `id` tags it so an invocation trace can
record which callback ran. -/
structure Callback where
  id : Nat
  result : Option GoError
deriving DecidableEq, Repr

/-- Modelled from the spec: `changeHandler.Do` (the `newOnChange` registry is
not part of the provided source slice) calls every registered callback in
registration order; a failing callback does not stop later callbacks; the
method returns a single representative (first) error.  The first component is
the trace of invoked callback ids, in order. -/
def changeHandlerDo (cbs : List Callback) : List Nat × Option GoError :=
  (cbs.map Callback.id,
   cbs.foldl (fun acc cb => acc.orElse fun _ => cb.result) none)

/-- The configuration state relevant to the detection loop: the routing
store, the plain autoscaling-version field, and the registered callbacks
(`Config` in main.go, restricted to the fields the detection core touches). -/
structure Config where
  openshiftRoutes : openshiftRoutesWrapper
  autoscalingVersion : AutoscalingVersion
  callbacks : List Callback
  autoDetectFrequencySec : Nat
deriving DecidableEq, Repr

/-- Observable events of a detection pass on the routing store and the
callback registry: a `Set` on the store, or one `Do` invocation with the
trace of callback ids it ran. -/
inductive StoreEvent where
  | set (ora : OpenShiftRoutesAvailability)
  | invoke (ids : List Nat)
deriving DecidableEq, Repr

/-- The outcome of one `AutoDetect` pass: the resulting configuration, the
returned error, and the ordered log of store/notifier events. -/
structure AutoDetectResult where
  config : Config
  err : Option GoError
  log : List StoreEvent
deriving DecidableEq, Repr

/-- `Config.AutoDetect` from main.go, with the two probe queries supplied as
`Except` results.  Mirrors the Go control flow: return the routing probe
error immediately; on a changed value, `Set` then `Do` (a `Do` error is
logged, not returned); return the autoscaling probe error; otherwise store
the fresh autoscaling version and return nil. -/
def Config.AutoDetect (c : Config)
    (oraProbe : Except GoError OpenShiftRoutesAvailability)
    (hpaProbe : Except GoError AutoscalingVersion) : AutoDetectResult :=
  match oraProbe with
  | Except.error e => { config := c, err := some e, log := [] }
  | Except.ok ora =>
    let step :=
      if c.openshiftRoutes.Get ≠ ora then
        let c1 := { c with openshiftRoutes := c.openshiftRoutes.Set ora }
        let done := changeHandlerDo c1.callbacks
        (c1, [StoreEvent.set ora, StoreEvent.invoke done.1])
      else
        (c, ([] : List StoreEvent))
    match hpaProbe with
    | Except.error e => { config := step.1, err := some e, log := step.2 }
    | Except.ok v =>
        { config := { step.1 with autoscalingVersion := v }, err := none,
          log := step.2 }

/-- A pair of probe results for one periodic tick. -/
abbrev ProbePass :=
  Except GoError OpenShiftRoutesAvailability × Except GoError AutoscalingVersion

/-- `Config.periodicAutoDetect` from main.go over a finite schedule of probe
results: each tick runs `AutoDetect`; an error is logged and the loop
continues. -/
def Config.periodicAutoDetect : Config → List ProbePass → Config
  | c, [] => c
  | c, p :: rest => ((c.AutoDetect p.1 p.2).config).periodicAutoDetect rest

/-- `Config.StartAutoDetect` from main.go: run one pass synchronously,
launch the periodic loop unconditionally, and return the first pass's
error.  The launched loop is represented by the configuration it produces
over a finite schedule of later ticks. -/
def Config.StartAutoDetect (c : Config) (firstPass : ProbePass)
    (rest : List ProbePass) : Option GoError × Config :=
  let r := c.AutoDetect firstPass.1 firstPass.2
  (r.err, r.config.periodicAutoDetect rest)

/-- `Config.OpenShiftRoutes` from main.go. -/
def Config.OpenShiftRoutes (c : Config) : OpenShiftRoutesAvailability :=
  c.openshiftRoutes.Get

/-- `Config.AutoscalingVersion` from main.go. -/
def Config.AutoscalingVersion (c : Config) : AutoscalingVersion :=
  c.autoscalingVersion

/-- `Config.RegisterOpenShiftRoutesChangeCallback` from main.go: append the
callback to the registry. -/
def Config.RegisterOpenShiftRoutesChangeCallback (c : Config) (f : Callback) :
    Config :=
  { c with callbacks := c.callbacks ++ [f] }

/-- Modelled from the spec: the option mechanism is external and the
detection interval is the only externally tunable parameter supplied at
construction time. -/
inductive ConfigOption where
  | withAutoDetectFrequency (seconds : Nat)
deriving DecidableEq, Repr

/-- The mutable option record `New` fills with defaults before applying the
caller's options (main.go lines 55-65, restricted to the detection core). -/
structure options where
  autoDetectFrequencySec : Nat
  openshiftRoutes : openshiftRoutesWrapper
  autoscalingVersion : AutoscalingVersion
  callbacks : List Callback
deriving DecidableEq, Repr

/-- Application of one construction option to the option record. -/
def applyOption (o : options) : ConfigOption → options
  | ConfigOption.withAutoDetectFrequency s => { o with autoDetectFrequencySec := s }

/-- `New` from main.go: initialize the option record with the default
frequency, a fresh routing store, the default autoscaling version and an
empty registry, apply the options, and build the `Config`. -/
def New (opts : List ConfigOption) : Config :=
  let o : options :=
    { autoDetectFrequencySec := 5,
      openshiftRoutes := newOpenShiftRoutesWrapper,
      autoscalingVersion := DefaultAutoscalingVersion,
      callbacks := [] }
  let o := opts.foldl applyOption o
  { openshiftRoutes := o.openshiftRoutes,
    autoscalingVersion := o.autoscalingVersion,
    callbacks := o.callbacks,
    autoDetectFrequencySec := o.autoDetectFrequencySec }

/-- Helper: folding the construction options over the option record never
changes the routing store field. -/
theorem foldl_applyOption_openshiftRoutes (opts : List ConfigOption) (o : options) :
    (opts.foldl applyOption o).openshiftRoutes = o.openshiftRoutes := by
  induction opts generalizing o with
  | nil => rfl
  | cons a rest ih => cases a with
    | withAutoDetectFrequency s => exact ih { o with autoDetectFrequencySec := s }

/-- Helper: folding the construction options over the option record never
changes the autoscaling-version field. -/
theorem foldl_applyOption_autoscalingVersion (opts : List ConfigOption) (o : options) :
    (opts.foldl applyOption o).autoscalingVersion = o.autoscalingVersion := by
  induction opts generalizing o with
  | nil => rfl
  | cons a rest ih => cases a with
    | withAutoDetectFrequency s => exact ih { o with autoDetectFrequencySec := s }

/-- Claim C1: `AutoDetect` returns nil exactly when both probes succeed, and
when the routing-availability probe fails it returns that error immediately
with the autoscaling probe never queried (the pass outcome is independent of
the autoscaling probe result). -/
theorem AutoDetect_C1 (c : Config)
    (ora : Except GoError OpenShiftRoutesAvailability)
    (hpa : Except GoError AutoscalingVersion) :
    ((c.AutoDetect ora hpa).err = none ↔
      (∃ a, ora = Except.ok a) ∧ (∃ v, hpa = Except.ok v)) ∧
    (∀ e, ora = Except.error e →
      (c.AutoDetect ora hpa).err = some e ∧
      ∀ hpa2, c.AutoDetect ora hpa = c.AutoDetect ora hpa2) := by
  constructor
  · cases ora with
    | error e => simp [Config.AutoDetect]
    | ok a =>
      cases hpa with
      | error e => simp [Config.AutoDetect]
      | ok v => simp [Config.AutoDetect]
  · intro e he
    subst he
    exact ⟨rfl, fun hpa2 => rfl⟩

/-- Witness for C1 at a concrete failing routing probe. -/
theorem AutoDetect_C1_witness :
    ((((New []).AutoDetect (Except.error "down") (Except.ok AutoscalingVersion.V1)).err =
        none ↔
      (∃ a, (Except.error "down" : Except GoError OpenShiftRoutesAvailability) =
        Except.ok a) ∧
      (∃ v, (Except.ok AutoscalingVersion.V1 : Except GoError AutoscalingVersion) =
        Except.ok v)) ∧
    (∀ e, (Except.error "down" : Except GoError OpenShiftRoutesAvailability) =
        Except.error e →
      ((New []).AutoDetect (Except.error "down") (Except.ok AutoscalingVersion.V1)).err =
        some e ∧
      ∀ hpa2, (New []).AutoDetect (Except.error "down") (Except.ok AutoscalingVersion.V1) =
        (New []).AutoDetect (Except.error "down") hpa2)) :=
  AutoDetect_C1 (New []) (Except.error "down") (Except.ok AutoscalingVersion.V1)

/-- Claim C2: when the routing probe succeeds and the autoscaling probe
fails, `AutoDetect` returns the autoscaling probe's error, and the routing
store afterwards holds the probed routing value (an update made earlier in
the pass is not rolled back). -/
theorem AutoDetect_C2 (c : Config) (a : OpenShiftRoutesAvailability)
    (e : GoError) :
    (c.AutoDetect (Except.ok a) (Except.error e)).err = some e ∧
    ((c.AutoDetect (Except.ok a) (Except.error e)).config).OpenShiftRoutes = a ∧
    ((c.AutoDetect (Except.ok a) (Except.error e)).config).autoscalingVersion =
      c.autoscalingVersion := by
  by_cases h : c.openshiftRoutes.Get = a
  · simp [Config.AutoDetect, h, Config.OpenShiftRoutes]
  · simp only [openshiftRoutesWrapper.Get] at h
    simp [Config.AutoDetect, h, Config.OpenShiftRoutes, openshiftRoutesWrapper.Get,
      openshiftRoutesWrapper.Set]

/-- Claim C3: when the routing probe returns exactly the value currently held
by the store, the pass performs no `Set` on the store and invokes no
callback (the event log is empty), and the store is left untouched. -/
theorem AutoDetect_C3 (c : Config) (hpa : Except GoError AutoscalingVersion) :
    (c.AutoDetect (Except.ok (c.openshiftRoutes.Get)) hpa).log = [] ∧
    ((c.AutoDetect (Except.ok (c.openshiftRoutes.Get)) hpa).config).openshiftRoutes =
      c.openshiftRoutes := by
  cases hpa with
  | error e => simp [Config.AutoDetect]
  | ok v => simp [Config.AutoDetect]

/-- Claim C4: when the probed routing value differs from the stored one, the
pass stores the new value and then invokes the registered callbacks exactly
once — a single `Set` event followed by a single `Do` event whose trace runs
every registered callback in registration order. -/
theorem AutoDetect_C4 (c : Config) (a : OpenShiftRoutesAvailability)
    (hpa : Except GoError AutoscalingVersion)
    (h : c.openshiftRoutes.Get ≠ a) :
    (c.AutoDetect (Except.ok a) hpa).log =
      [StoreEvent.set a, StoreEvent.invoke (c.callbacks.map Callback.id)] ∧
    ((c.AutoDetect (Except.ok a) hpa).config).OpenShiftRoutes = a := by
  simp only [openshiftRoutesWrapper.Get] at h
  cases hpa with
  | error e =>
    simp [Config.AutoDetect, h, changeHandlerDo, Config.OpenShiftRoutes,
      openshiftRoutesWrapper.Get, openshiftRoutesWrapper.Set]
  | ok v =>
    simp [Config.AutoDetect, h, changeHandlerDo, Config.OpenShiftRoutes,
      openshiftRoutesWrapper.Get, openshiftRoutesWrapper.Set]

/-- Witness for C4: a fresh configuration with two registered callbacks, on a
transition from `NotAvailable` to `Available`. -/
theorem AutoDetect_C4_witness :
    (((New []).RegisterOpenShiftRoutesChangeCallback
        { id := 1, result := none }).RegisterOpenShiftRoutesChangeCallback
        { id := 2, result := none }).openshiftRoutes.Get ≠
      OpenShiftRoutesAvailability.Available ∧
    ((((New []).RegisterOpenShiftRoutesChangeCallback
        { id := 1, result := none }).RegisterOpenShiftRoutesChangeCallback
        { id := 2, result := none }).AutoDetect
        (Except.ok OpenShiftRoutesAvailability.Available)
        (Except.ok AutoscalingVersion.V1)).log =
      [StoreEvent.set OpenShiftRoutesAvailability.Available,
       StoreEvent.invoke
        ((((New []).RegisterOpenShiftRoutesChangeCallback
            { id := 1, result := none }).RegisterOpenShiftRoutesChangeCallback
            { id := 2, result := none }).callbacks.map Callback.id)] ∧
    (((((New []).RegisterOpenShiftRoutesChangeCallback
        { id := 1, result := none }).RegisterOpenShiftRoutesChangeCallback
        { id := 2, result := none }).AutoDetect
        (Except.ok OpenShiftRoutesAvailability.Available)
        (Except.ok AutoscalingVersion.V1)).config).OpenShiftRoutes =
      OpenShiftRoutesAvailability.Available :=
  ⟨by decide,
   (AutoDetect_C4
      (((New []).RegisterOpenShiftRoutesChangeCallback
          { id := 1, result := none }).RegisterOpenShiftRoutesChangeCallback
          { id := 2, result := none })
      OpenShiftRoutesAvailability.Available
      (Except.ok AutoscalingVersion.V1) (by decide)).1,
   (AutoDetect_C4
      (((New []).RegisterOpenShiftRoutesChangeCallback
          { id := 1, result := none }).RegisterOpenShiftRoutesChangeCallback
          { id := 2, result := none })
      OpenShiftRoutesAvailability.Available
      (Except.ok AutoscalingVersion.V1) (by decide)).2⟩

/-- Claim C5: a failing callback does not prevent later-registered callbacks
from being invoked in the same notification (the `Do` trace always runs every
registered callback in order, whatever the callback results), and a failing
notification does not make the pass fail: with both probes succeeding,
`AutoDetect` returns nil for every callback list, failing callbacks included. -/
theorem AutoDetect_C5 (c : Config) (a : OpenShiftRoutesAvailability)
    (v : AutoscalingVersion) (h : c.openshiftRoutes.Get ≠ a) :
    (∀ cbs : List Callback, (changeHandlerDo cbs).1 = cbs.map Callback.id) ∧
    (c.AutoDetect (Except.ok a) (Except.ok v)).err = none ∧
    (c.AutoDetect (Except.ok a) (Except.ok v)).log =
      [StoreEvent.set a, StoreEvent.invoke (c.callbacks.map Callback.id)] := by
  refine ⟨fun cbs => rfl, ?_, ?_⟩
  · simp [Config.AutoDetect]
  · simp only [openshiftRoutesWrapper.Get] at h
    simp [Config.AutoDetect, h, changeHandlerDo, openshiftRoutesWrapper.Get]

/-- Witness for C5: a registry whose first callback fails; the trace still
contains both callbacks in order and the pass returns nil. -/
theorem AutoDetect_C5_witness :
    (((New []).RegisterOpenShiftRoutesChangeCallback
        { id := 1, result := some "boom" }).RegisterOpenShiftRoutesChangeCallback
        { id := 2, result := none }).openshiftRoutes.Get ≠
      OpenShiftRoutesAvailability.Available ∧
    (∀ cbs : List Callback, (changeHandlerDo cbs).1 = cbs.map Callback.id) ∧
    ((((New []).RegisterOpenShiftRoutesChangeCallback
        { id := 1, result := some "boom" }).RegisterOpenShiftRoutesChangeCallback
        { id := 2, result := none }).AutoDetect
        (Except.ok OpenShiftRoutesAvailability.Available)
        (Except.ok AutoscalingVersion.V1)).err = none ∧
    ((((New []).RegisterOpenShiftRoutesChangeCallback
        { id := 1, result := some "boom" }).RegisterOpenShiftRoutesChangeCallback
        { id := 2, result := none }).AutoDetect
        (Except.ok OpenShiftRoutesAvailability.Available)
        (Except.ok AutoscalingVersion.V1)).log =
      [StoreEvent.set OpenShiftRoutesAvailability.Available,
       StoreEvent.invoke
        ((((New []).RegisterOpenShiftRoutesChangeCallback
            { id := 1, result := some "boom" }).RegisterOpenShiftRoutesChangeCallback
            { id := 2, result := none }).callbacks.map Callback.id)] :=
  ⟨by decide,
   AutoDetect_C5
     (((New []).RegisterOpenShiftRoutesChangeCallback
         { id := 1, result := some "boom" }).RegisterOpenShiftRoutesChangeCallback
         { id := 2, result := none })
     OpenShiftRoutesAvailability.Available AutoscalingVersion.V1 (by decide)⟩

/-- Claim C6: `StartAutoDetect` runs one pass synchronously and returns that
pass's error, and the periodic loop runs afterwards over the remaining ticks
in both cases — the returned state is the loop's evolution of the first
pass's state whether the first pass failed or succeeded. -/
theorem StartAutoDetect_C6 (c : Config) (p : ProbePass) (rest : List ProbePass) :
    (c.StartAutoDetect p rest).1 = (c.AutoDetect p.1 p.2).err ∧
    (c.StartAutoDetect p rest).2 =
      ((c.AutoDetect p.1 p.2).config).periodicAutoDetect rest :=
  ⟨rfl, rfl⟩

/-- Claim C7: when both probes succeed the freshly probed autoscaling version
is stored unconditionally — for every starting state `AutoscalingVersion`
afterwards returns the probed value, the pass returns nil, and the store or
notifier event log never depends on the autoscaling probe result (no
comparison, no notification for this field). -/
theorem AutoDetect_C7 (c : Config) (a : OpenShiftRoutesAvailability)
    (v : AutoscalingVersion) :
    ((c.AutoDetect (Except.ok a) (Except.ok v)).config).AutoscalingVersion = v ∧
    (c.AutoDetect (Except.ok a) (Except.ok v)).err = none ∧
    ∀ hpa hpa2 : Except GoError AutoscalingVersion,
      (c.AutoDetect (Except.ok a) hpa).log = (c.AutoDetect (Except.ok a) hpa2).log := by
  refine ⟨?_, ?_, ?_⟩
  · simp [Config.AutoDetect, Config.AutoscalingVersion]
  · simp [Config.AutoDetect]
  · intro hpa hpa2
    cases hpa <;> cases hpa2 <;> rfl

/-- Claim C8: a configuration freshly built by `New` starts with routing
availability `NotAvailable` and with the configured default autoscaling
version, before any detection pass has run. -/
theorem New_C8 (opts : List ConfigOption) :
    (New opts).OpenShiftRoutes = OpenShiftRoutesAvailability.NotAvailable ∧
    (New opts).AutoscalingVersion = DefaultAutoscalingVersion := by
  constructor
  · simp [New, Config.OpenShiftRoutes, foldl_applyOption_openshiftRoutes,
      newOpenShiftRoutesWrapper, openshiftRoutesWrapper.Get]
  · simp [New, Config.AutoscalingVersion, foldl_applyOption_autoscalingVersion]

/-- Claim C9: a `Get` on the routing-availability store that follows a
completed `Set` of `v` with no intervening `Set` returns exactly `v`. -/
theorem Store_C9 (w : openshiftRoutesWrapper) (v : OpenShiftRoutesAvailability) :
    (w.Set v).Get = v :=
  rfl

/-- Claim C10: when the routing-availability probe fails, the pass leaves the
whole configuration state unchanged — no `Set`, no callback, same stored
routing value and same stored autoscaling version — and returns the probe
error. -/
theorem AutoDetect_C10 (c : Config) (e : GoError)
    (hpa : Except GoError AutoscalingVersion) :
    (c.AutoDetect (Except.error e) hpa).config = c ∧
    (c.AutoDetect (Except.error e) hpa).log = [] ∧
    (c.AutoDetect (Except.error e) hpa).err = some e :=
  ⟨rfl, rfl, rfl⟩

end K8sAgentsOperator
